import Mathlib

/-!
Browser client `api.js`: a shallow embedding.

The script talks to an HTTP backend and renders into a handful of DOM
elements.  The embedding keeps

* the DOM elements the script looks up by id, as the record `Page`;
* every observable call to the platform (`fetch`, `alert`, `console`), as a
  chronological list of `Event`s;
* exceptions, as the `Except JsError` component of the `Js` monad, with
  `Js.tryCatch` for `try { } catch (error) { }`.

The backend and the locale formatting of dates are outside the script; they
enter as the two fields of `Env`.  Strings are Lean strings (sequences of
Unicode scalar values).  `innerHTML` is the markup last assigned to it.

The page is one that has every element the script looks up
(`connection-status`, the inputs, the three output regions, the quote form):
`document.getElementById` returning `null` is outside the model.  An `async`
function is run to completion at the point of its call, so the log lists the
events of a call that is not awaited right after the call.
-/

namespace ApiJs

/-! ## Values -/

/-- A thrown JavaScript `Error`: its constructor name and its `message`. -/
structure JsError where
  name : String
  message : String
deriving DecidableEq, Repr

/-- A parsed JSON number, by what the script can observe of it.  The script
never computes with a number: it converts it to a string and tests it for
truthiness.  So a number is the text `Number.prototype.toString` gives for it
(`"42"`, `"0.5"`, `"1e+21"`, `"Infinity"` for a literal that overflows) and
whether it is zero (`0` and `-0`, the falsy numbers `JSON.parse` can give). -/
structure JsNumber where
  texto : String
  esCero : Bool
deriving DecidableEq, Repr

/-- The value of `JSON.parse`.  The members of an object are listed with
distinct keys. -/
inductive Json where
  | null : Json
  | bool (b : Bool) : Json
  | num (n : JsNumber) : Json
  | str (s : String) : Json
  | arr (xs : List Json) : Json
  | obj (kvs : List (String × Json)) : Json

/-- Look a key up in the member list of a parsed object. -/
def lookupKey (k : String) : List (String × Json) → Option Json
  | [] => none
  | (k', v) :: rest => if k' = k then some v else lookupKey k rest

/-- Property read `v.k` on a parsed JSON value, for a key `k` that no built-in
prototype defines (`error`, `service`, `respuesta`, ...).  `none` is
`undefined`; reading a property of `null` throws a `TypeError` (message text
as V8 words it). -/
def getProp (v : Json) (k : String) : Except JsError (Option Json) :=
  match v with
  | .null => .error ⟨"TypeError", "Cannot read properties of null (reading '" ++ k ++ "')"⟩
  | .obj kvs => .ok (lookupKey k kvs)
  | _ => .ok none

/-- JavaScript truthiness of a value read from parsed JSON (`none` is
`undefined`). -/
def truthy : Option Json → Bool
  | none => false
  | some .null => false
  | some (.bool b) => b
  | some (.num n) => !n.esCero
  | some (.str s) => s != ""
  | some (.arr _) => true
  | some (.obj _) => true

mutual
/-- The value converts to a string without a throw.  A parsed object whose
members include the key `toString` does not: that member hides
`Object.prototype.toString` and is not callable, and neither `valueOf` gives a
primitive, so `ToString` throws a `TypeError`.  An array converts when each of
its elements does; every other value converts. -/
def Json.convertible : Json → Bool
  | .arr xs => Json.allConvertible xs
  | .obj kvs => (lookupKey "toString" kvs).isNone
  | _ => true
/-- Every element of the list converts. -/
def Json.allConvertible : List Json → Bool
  | [] => true
  | x :: xs => Json.convertible x && Json.allConvertible xs
end

mutual
/-- The abstract operation `ToString` on a parsed JSON value.  It is exact on
the values that are `Json.convertible`; on the others JavaScript throws where
this function returns. -/
def Json.toStr : Json → String
  | .null => "null"
  | .bool b => if b then "true" else "false"
  | .num n => n.texto
  | .str s => s
  | .arr xs => Json.joinComma xs
  | .obj _ => "[object Object]"
/-- The function `Array.prototype.join(',')`: `null` elements print as the
empty string. -/
def Json.joinComma : List Json → String
  | [] => ""
  | [x] => Json.elemStr x
  | x :: y :: rest => Json.elemStr x ++ "," ++ Json.joinComma (y :: rest)
/-- One element inside `join`: `ToString`, but the empty string for `null`. -/
def Json.elemStr : Json → String
  | .null => ""
  | .bool b => if b then "true" else "false"
  | .num n => n.texto
  | .str s => s
  | .arr xs => Json.joinComma xs
  | .obj _ => "[object Object]"
end

/-- Template interpolation of a possibly `undefined` value: its string form
(exact for `undefined` and for every value that is `Json.convertible`). -/
def interp : Option Json → String
  | none => "undefined"
  | some v => v.toStr

/-! ## Strings -/

/-- The code points `String.prototype.trim` strips: ECMAScript `WhiteSpace`
(tab, vertical tab, form feed, space, no-break space, U+FEFF and the Unicode
space separators) and `LineTerminator` (LF, CR, U+2028, U+2029). -/
def isJsWhiteSpace (c : Char) : Bool :=
  [0x0009, 0x000A, 0x000B, 0x000C, 0x000D, 0x0020, 0x00A0, 0x1680, 0x2028,
    0x2029, 0x202F, 0x205F, 0x3000, 0xFEFF].contains c.toNat
  || (0x2000 ≤ c.toNat && c.toNat ≤ 0x200A)

/-- The method `String.prototype.trim`. -/
def trim (s : String) : String :=
  String.mk ((s.data.dropWhile isJsWhiteSpace).reverse.dropWhile isJsWhiteSpace).reverse

/-- Replace every line feed by the four characters of the `br` tag. -/
def replaceNewlinesChars : List Char → List Char
  | [] => []
  | c :: cs =>
    if c = '\n' then '<' :: 'b' :: 'r' :: '>' :: replaceNewlinesChars cs
    else c :: replaceNewlinesChars cs

/-- The call `s.replace(/\n/g, '<br>')`. -/
def replaceNewlines (s : String) : String :=
  String.mk (replaceNewlinesChars s.data)

/-- The call `s.split(sep)` for a one-character separator, on character
lists.  The result is never empty. -/
def splitChars (sep : Char) : List Char → List (List Char)
  | [] => [[]]
  | c :: cs =>
    if c = sep then [] :: splitChars sep cs
    else
      match splitChars sep cs with
      | [] => [[c]]
      | seg :: segs => (c :: seg) :: segs

/-- The method `String.prototype.toLowerCase`, on the letters `A` to `Z`;
other characters are kept.  (No character outside `A`-`Z` lower-cases to a
letter of an allowed extension, so the allow-list test is not affected.) -/
def toLowerCase (s : String) : String :=
  String.mk (s.data.map Char.toLower)

/-- The expression `name.split('.').pop()`: the last piece of the split. -/
def splitPop (name : String) : String :=
  String.mk ((splitChars '.' name.data).getLastD [])

/-- The expression `file.name.split('.').pop().toLowerCase()`. -/
def fileExtension (name : String) : String :=
  toLowerCase (splitPop name)

/-- The spec's wording of the extension, "the text after the last '.' of its
name": the longest suffix of the name that holds no dot. -/
def textAfterLastDot (name : String) : String :=
  String.mk (name.data.reverse.takeWhile (fun c => c != '.')).reverse

/-- The array `allowedTypes` of the file-change handler. -/
def allowedTypes : List String := ["pdf", "txt", "csv", "xlsx", "docx"]

/-! ## The page, the platform and the `Js` monad -/

/-- A DOM element as the script uses it: `innerHTML`, `className` and
`style.display`. -/
structure Element where
  innerHTML : String
  className : String
  display : String
deriving DecidableEq, Repr

/-- A `File`: the two properties the script reads. -/
structure FileInfo where
  name : String
  size : Nat
deriving DecidableEq, Repr

/-- The quote form: the entries `new FormData(form)` snapshots, and the
entries `form.reset()` restores. -/
structure Form where
  entries : List (String × String)
  defaults : List (String × String)
deriving DecidableEq, Repr

/-- The elements the script looks up by id.  `archivoInput` is the file list
of the upload input (assigning `''` to its `value` empties the list); the text
inputs and selects are their `value`. -/
structure Page where
  connectionStatus : Element
  consultaInput : String
  contextoInput : String
  resultadoConsulta : Element
  archivoInput : List FileInfo
  tipoAnalisis : String
  instruccionesAnalisis : String
  resultadoAnalisis : Element
  formCotizacion : Form
  resultadoCotizacion : Element
deriving DecidableEq, Repr

/-- One value appended to a multipart `FormData`. -/
inductive FormValue where
  | file (f : FileInfo) : FormValue
  | text (s : String) : FormValue

/-- A request body: none, the value handed to `JSON.stringify`, or the
entries of a `FormData`. -/
inductive Body where
  | none : Body
  | json (v : Json) : Body
  | formData (entries : List (String × FormValue)) : Body

/-- The arguments of one `fetch` call. -/
structure Request where
  url : String
  method : String
  headers : List (String × String)
  mode : String
  body : Body

/-- A `Response`: status line, and what `response.json()` settles to (the
parsed body, or the rejection when the body is not JSON). -/
structure Response where
  status : Nat
  statusText : String
  json : Except JsError Json

/-- The getter `response.ok`: status in the range 200 to 299. -/
def Response.ok (r : Response) : Bool :=
  200 ≤ r.status && r.status ≤ 299

/-- What lies outside the script: the backend behind `fetch` (a response, or
the rejection of a network failure) and `new Date(x).toLocaleString('es-CO')`
as one function of the value `x` read from the payload. -/
structure Env where
  fetch : Request → Except JsError Response
  toLocaleString : Option Json → String

/-- An observable call to the platform.  Console events keep the label, not
the logged value. -/
inductive Event where
  | fetch (req : Request) : Event
  | alert (msg : String) : Event
  | consoleLog (label : String) : Event
  | consoleError (label : String) : Event

/-- The event is a network request. -/
def Event.isFetch : Event → Bool
  | .fetch _ => true
  | _ => false

/-- The mutable world of a run: the page and the events so far, oldest
first. -/
structure World where
  page : Page
  log : List Event

/-- A JavaScript computation: from a world to a value or a thrown error,
and the world it leaves (effects made before a throw persist). -/
def Js (α : Type) : Type := World → Except JsError α × World

namespace Js

/-- Return a value. -/
def ret {α : Type} (a : α) : Js α := fun w => (.ok a, w)

/-- Sequencing: a throw in the first part skips the second. -/
def andThen {α β : Type} (m : Js α) (f : α → Js β) : Js β := fun w =>
  match m w with
  | (.ok a, w') => f a w'
  | (.error e, w') => (.error e, w')

/-- The statement `throw e`. -/
def throwJs {α : Type} (e : JsError) : Js α := fun w => (.error e, w)

/-- The statement `try body catch (error) handler`. -/
def tryCatch {α : Type} (body : Js α) (handler : JsError → Js α) : Js α := fun w =>
  match body w with
  | (.ok a, w') => (.ok a, w')
  | (.error e, w') => handler e w'

/-- A call to an `async` function without `await`: it runs, and its
rejection, if any, reaches nobody. -/
def fireAndForget {α : Type} (m : Js α) : Js Unit := fun w =>
  (.ok (), (m w).2)

/-- Use a value that may be a throw. -/
def lift {α : Type} (x : Except JsError α) : Js α := fun w => (x, w)

/-- Record a platform call. -/
def emit (ev : Event) : Js Unit := fun w => (.ok (), { w with log := w.log ++ [ev] })

/-- Read the page. -/
def getPage : Js Page := fun w => (.ok w.page, w)

/-- Assign to the page. -/
def modifyPage (f : Page → Page) : Js Unit := fun w => (.ok (), { w with page := f w.page })

end Js

instance : Monad Js where
  pure := Js.ret
  bind := Js.andThen

/-- The constant `API_BASE_URL`. -/
def API_BASE_URL : String := "http://localhost:8080/api"

/-- The call `await fetch(url, options)`: the request is recorded, then the
backend answers or the call rejects. -/
def fetch (env : Env) (req : Request) : Js Response := do
  Js.emit (.fetch req)
  Js.lift (env.fetch req)

/-- The request of `verificarConexion`: `GET /health`. -/
def healthRequest : Request :=
  { url := API_BASE_URL ++ "/health", method := "GET",
    headers := [("Content-Type", "application/json")], mode := "cors", body := .none }

/-- The request of `testPublicInfo`: `GET /public/info`. -/
def publicInfoRequest : Request :=
  { url := API_BASE_URL ++ "/public/info", method := "GET",
    headers := [("Content-Type", "application/json")], mode := "cors", body := .none }

/-- The request of `consultarGemini`: `POST /consulta` with the JSON of
`{consulta, contexto}`. -/
def consultaRequest (consulta : String) (contexto : String) : Request :=
  { url := API_BASE_URL ++ "/consulta", method := "POST",
    headers := [("Content-Type", "application/json")], mode := "cors",
    body := .json (.obj [("consulta", .str consulta), ("contexto", .str contexto)]) }

/-- The entries `analizarDocumento` appends to its `FormData`: the
instructions only when they are a non-empty string. -/
def analisisFormData (archivo : FileInfo) (tipoAnalisis : String) (instrucciones : String) :
    List (String × FormValue) :=
  [("documento", .file archivo), ("tipoAnalisis", .text tipoAnalisis)]
    ++ (if instrucciones != "" then [("instrucciones", .text instrucciones)] else [])

/-- The request of `analizarDocumento`: `POST /analizar-documento`, multipart,
with no explicit headers. -/
def analisisRequest (archivo : FileInfo) (tipoAnalisis : String) (instrucciones : String) :
    Request :=
  { url := API_BASE_URL ++ "/analizar-documento", method := "POST", headers := [],
    mode := "cors", body := .formData (analisisFormData archivo tipoAnalisis instrucciones) }

/-- The request of `generarCotizacion`: `POST /cotizacion` with the JSON of
`datos`. -/
def cotizacionRequest (datos : Json) : Request :=
  { url := API_BASE_URL ++ "/cotizacion", method := "POST",
    headers := [("Content-Type", "application/json")], mode := "cors", body := .json datos }

/-- The expression `new Error(message)`. -/
def newError (message : String) : JsError := ⟨"Error", message⟩

/-- The message of `new Error(v || fallback)`, when the conversion of `v` to a
string does not throw: the string form of `v` when `v` is truthy, the fallback
otherwise. -/
def messageOr (v : Option Json) (fallback : String) : String :=
  if truthy v then interp v else fallback

/-- The `TypeError` of `ToString` on an object that has no callable
`toString` or `valueOf` giving a primitive (message text as V8 words it). -/
def errorNoPrimitive : JsError :=
  ⟨"TypeError", "Cannot convert object to primitive value"⟩

/-- The expression `new Error(v || fallback)`: the error it builds, or the
`TypeError` thrown when `v` is truthy and its conversion to a string throws. -/
def newErrorOr (v : Option Json) (fallback : String) : Except JsError JsError :=
  match v with
  | none => .ok (newError fallback)
  | some j =>
    if truthy (some j) then
      if j.convertible then .ok (newError j.toStr) else .error errorNoPrimitive
    else .ok (newError fallback)

/-- The call `v.replace(/\n/g, '<br>')` on a value read from the payload;
`expr` is the source text of `v`, which V8 quotes in the `TypeError` when `v`
is not a string. -/
def callReplace (expr : String) (v : Option Json) : Except JsError String :=
  match v with
  | some (.str s) => .ok (replaceNewlines s)
  | none => .error ⟨"TypeError", "Cannot read properties of undefined (reading 'replace')"⟩
  | some .null => .error ⟨"TypeError", "Cannot read properties of null (reading 'replace')"⟩
  | some _ => .error ⟨"TypeError", expr ++ ".replace is not a function"⟩

/-! ## Connectivity check -/

/-- The function `testPublicInfo`. -/
def testPublicInfo (env : Env) : Js Unit :=
  Js.tryCatch (do
    let response ← fetch env publicInfoRequest
    if response.ok then
      let _data ← Js.lift response.json
      Js.emit (.consoleLog "📊 Información pública cargada:")
    else
      pure ())
    (fun _error => Js.emit (.consoleError "⚠️ Error cargando información pública:"))

/-- The function `verificarConexion`. -/
def verificarConexion (env : Env) : Js Bool := do
  Js.modifyPage (fun p =>
    { p with connectionStatus := { p.connectionStatus with innerHTML := "🔄 Verificando conexión..." } })
  Js.modifyPage (fun p =>
    { p with connectionStatus := { p.connectionStatus with className := "connection-status verifying" } })
  Js.tryCatch (do
    let response ← fetch env healthRequest
    if response.ok then
      let data ← Js.lift response.json
      Js.emit (.consoleLog "✅ Backend conectado:")
      let service ← Js.lift (getProp data "service")
      Js.modifyPage (fun p =>
        { p with connectionStatus :=
            { p.connectionStatus with innerHTML := "🟢 " ++ interp service ++ " Conectado" } })
      Js.modifyPage (fun p =>
        { p with connectionStatus := { p.connectionStatus with className := "connection-status connected" } })
      Js.fireAndForget (testPublicInfo env)
      pure true
    else
      Js.throwJs (newError ("HTTP " ++ toString response.status ++ ": " ++ response.statusText)))
    (fun _error => do
      Js.emit (.consoleError "❌ Error de conexión:")
      Js.modifyPage (fun p =>
        { p with connectionStatus := { p.connectionStatus with innerHTML := "🔴 Backend Sin Conexión" } })
      Js.modifyPage (fun p =>
        { p with connectionStatus := { p.connectionStatus with className := "connection-status disconnected" } })
      pure false)

/-! ## Domain operations -/

/-- The function `consultarGemini`. -/
def consultarGemini (env : Env) (consulta : String) (contexto : String) : Js Json :=
  Js.tryCatch (do
    let response ← fetch env (consultaRequest consulta contexto)
    if response.ok then
      Js.lift response.json
    else
      let error ← Js.lift response.json
      let message ← Js.lift (getProp error "error")
      let failure ← Js.lift (newErrorOr message "Error en la consulta")
      Js.throwJs failure)
    (fun error => do
      Js.emit (.consoleError "Error en consulta:")
      Js.throwJs error)

/-- The function `analizarDocumento`. -/
def analizarDocumento (env : Env) (archivo : FileInfo) (tipoAnalisis : String)
    (instrucciones : String) : Js Json :=
  Js.tryCatch (do
    let response ← fetch env (analisisRequest archivo tipoAnalisis instrucciones)
    if response.ok then
      Js.lift response.json
    else
      let error ← Js.lift response.json
      let message ← Js.lift (getProp error "error")
      let failure ← Js.lift (newErrorOr message "Error analizando documento")
      Js.throwJs failure)
    (fun error => do
      Js.emit (.consoleError "Error en análisis:")
      Js.throwJs error)

/-- The function `generarCotizacion`; `datos` is the value handed to
`JSON.stringify`. -/
def generarCotizacion (env : Env) (datos : Json) : Js Json :=
  Js.tryCatch (do
    let response ← fetch env (cotizacionRequest datos)
    if response.ok then
      Js.lift response.json
    else
      let error ← Js.lift response.json
      let message ← Js.lift (getProp error "error")
      let failure ← Js.lift (newErrorOr message "Error generando cotización")
      Js.throwJs failure)
    (fun error => do
      Js.emit (.consoleError "Error en cotización:")
      Js.throwJs error)

/-! ## UI helper functions -/

/-- The markup `mostrarLoading` assigns. -/
def loadingMarkup : String :=
  "\n        <div class=\"loading\">\n            <div class=\"spinner\"></div>\n            <p>🤖 Procesando con Gemini AI...</p>\n        </div>\n    "

/-- The markup `mostrarError` assigns for a message. -/
def errorMarkup (mensaje : String) : String :=
  "\n        <div class=\"error-message\">\n            <button onclick=\"this.parentElement.parentElement.style.display='none'\" class=\"close-btn\">&times;</button>\n            <strong>❌ Error:</strong> " ++ mensaje ++ "\n        </div>\n    "

/-- The markup `mostrarResultado` assigns for a content. -/
def resultadoMarkup (contenido : String) : String :=
  "\n        <div class=\"resultado-exitoso\">\n            " ++ contenido ++ "\n        </div>\n    "

/-- The function `mostrarLoading`. -/
def mostrarLoading (elemento : Element) : Element :=
  { elemento with innerHTML := loadingMarkup, display := "block" }

/-- The function `mostrarError`. -/
def mostrarError (mensaje : String) (elemento : Element) : Element :=
  { elemento with innerHTML := errorMarkup mensaje, display := "block" }

/-- The function `mostrarResultado`. -/
def mostrarResultado (contenido : String) (elemento : Element) : Element :=
  { elemento with innerHTML := resultadoMarkup contenido, display := "block" }

/-- A call to one of the three render functions, with its arguments other
than the region. -/
inductive RenderCall where
  | loading : RenderCall
  | error (mensaje : String) : RenderCall
  | resultado (contenido : String) : RenderCall
deriving DecidableEq, Repr

/-- Perform a render call on a region. -/
def RenderCall.apply (c : RenderCall) (elemento : Element) : Element :=
  match c with
  | .loading => mostrarLoading elemento
  | .error mensaje => mostrarError mensaje elemento
  | .resultado contenido => mostrarResultado contenido elemento

/-- Perform render calls on one region, first to last. -/
def applyCalls (cs : List RenderCall) (elemento : Element) : Element :=
  cs.foldl (fun e c => c.apply e) elemento

/-! ## Form handlers -/

/-- The content `realizarConsulta` hands to `mostrarResultado`. -/
def consultaContenido (respuesta : String) (fecha : String) : String :=
  "\n            <h4>🤖 Respuesta de Gemini AI:</h4>\n            <div class=\"respuesta-content\">" ++ respuesta ++ "</div>\n            <small class=\"timestamp\">⏰ " ++ fecha ++ "</small>\n        "

/-- The content `realizarAnalisis` hands to `mostrarResultado`. -/
def analisisContenido (archivo : String) (analisis : String) (fecha : String) : String :=
  "\n            <h4>📄 Análisis del documento: " ++ archivo ++ "</h4>\n            <div class=\"analisis-content\">" ++ analisis ++ "</div>\n            <small class=\"timestamp\">⏰ " ++ fecha ++ "</small>\n        "

/-- The content `realizarCotizacion` hands to `mostrarResultado`. -/
def cotizacionContenido (cotizacion : String) (fecha : String) : String :=
  "\n            <h4>💰 Cotización Generada</h4>\n            <div class=\"cotizacion-content\">" ++ cotizacion ++ "</div>\n            <div class=\"cotizacion-actions\">\n                <button onclick=\"descargarCotizacion()\" class=\"btn-descargar\">📥 Descargar TXT</button>\n                <button onclick=\"imprimirCotizacion()\" class=\"btn-imprimir\">🖨️ Imprimir</button>\n            </div>\n            <small class=\"timestamp\">⏰ " ++ fecha ++ "</small>\n        "

/-- The function `realizarConsulta`. -/
def realizarConsulta (env : Env) : Js Unit := do
  let consulta := trim (← Js.getPage).consultaInput
  let contexto := trim (← Js.getPage).contextoInput
  if consulta = "" then
    Js.modifyPage (fun p =>
      { p with resultadoConsulta := mostrarError "Por favor ingrese una consulta" p.resultadoConsulta })
  else
    Js.tryCatch (do
      Js.modifyPage (fun p => { p with resultadoConsulta := mostrarLoading p.resultadoConsulta })
      let respuesta ← consultarGemini env consulta contexto
      let texto ← Js.lift (getProp respuesta "respuesta")
      let html ← Js.lift (callReplace "respuesta.respuesta" texto)
      let timestamp ← Js.lift (getProp respuesta "timestamp")
      Js.modifyPage (fun p =>
        { p with resultadoConsulta :=
            mostrarResultado (consultaContenido html (env.toLocaleString timestamp)) p.resultadoConsulta })
      Js.modifyPage (fun p => { p with consultaInput := "" })
      Js.modifyPage (fun p => { p with contextoInput := "" }))
      (fun error =>
        Js.modifyPage (fun p => { p with resultadoConsulta := mostrarError error.message p.resultadoConsulta }))

/-- The function `realizarAnalisis`. -/
def realizarAnalisis (env : Env) : Js Unit := do
  let archivo := (← Js.getPage).archivoInput.head?
  let tipoAnalisis := (← Js.getPage).tipoAnalisis
  let instrucciones := (← Js.getPage).instruccionesAnalisis
  match archivo with
  | none =>
    Js.modifyPage (fun p =>
      { p with resultadoAnalisis := mostrarError "Por favor seleccione un archivo" p.resultadoAnalisis })
  | some archivo =>
    if archivo.size > 10 * 1024 * 1024 then
      Js.modifyPage (fun p =>
        { p with resultadoAnalisis :=
            mostrarError "El archivo es demasiado grande. Máximo 10MB" p.resultadoAnalisis })
    else
      Js.tryCatch (do
        Js.modifyPage (fun p => { p with resultadoAnalisis := mostrarLoading p.resultadoAnalisis })
        let respuesta ← analizarDocumento env archivo tipoAnalisis instrucciones
        let nombre ← Js.lift (getProp respuesta "archivo")
        let texto ← Js.lift (getProp respuesta "analisis")
        let html ← Js.lift (callReplace "respuesta.analisis" texto)
        let timestamp ← Js.lift (getProp respuesta "timestamp")
        Js.modifyPage (fun p =>
          { p with resultadoAnalisis :=
              (mostrarResultado (analisisContenido (interp nombre) html (env.toLocaleString timestamp))
                p.resultadoAnalisis) })
        Js.modifyPage (fun p => { p with archivoInput := [] })
        Js.modifyPage (fun p => { p with instruccionesAnalisis := "" }))
        (fun error =>
          Js.modifyPage (fun p => { p with resultadoAnalisis := mostrarError error.message p.resultadoAnalisis }))

/-- The call `formData.get(name)`: the first entry of that name, or `null`. -/
def formGet (name : String) : List (String × String) → Option String
  | [] => none
  | (k, v) :: rest => if k = name then some v else formGet name rest

/-- A form value inside the object handed to `JSON.stringify`. -/
def optStr : Option String → Json
  | none => .null
  | some s => .str s

/-- The object `datos` of `realizarCotizacion`. -/
def datosCotizacion (entries : List (String × String)) : Json :=
  .obj [("tipoServicio", optStr (formGet "tipoServicio" entries)),
    ("ubicacion", optStr (formGet "ubicacion" entries)),
    ("tamaño", optStr (formGet "tamaño" entries)),
    ("frecuencia", optStr (formGet "frecuencia" entries)),
    ("descripcion", optStr (formGet "descripcion" entries)),
    ("contacto", .obj [("nombre", optStr (formGet "nombre" entries)),
      ("email", optStr (formGet "email" entries)),
      ("telefono", optStr (formGet "telefono" entries)),
      ("empresa", optStr (formGet "empresa" entries))])]

/-- The test `!v` on a form value: `null` and the empty string. -/
def falsy : Option String → Bool
  | none => true
  | some s => s == ""

/-- The method `form.reset()`. -/
def Form.reset (form : Form) : Form :=
  { form with entries := form.defaults }

/-- The function `realizarCotizacion`. -/
def realizarCotizacion (env : Env) : Js Unit := do
  let formData := (← Js.getPage).formCotizacion.entries
  let datos := datosCotizacion formData
  if falsy (formGet "tipoServicio" formData) || falsy (formGet "ubicacion" formData) then
    Js.modifyPage (fun p =>
      { p with resultadoCotizacion :=
          (mostrarError "Por favor complete al menos el tipo de servicio y la ubicación"
            p.resultadoCotizacion) })
  else
    Js.tryCatch (do
      Js.modifyPage (fun p => { p with resultadoCotizacion := mostrarLoading p.resultadoCotizacion })
      let respuesta ← generarCotizacion env datos
      let texto ← Js.lift (getProp respuesta "cotizacion")
      let html ← Js.lift (callReplace "respuesta.cotizacion" texto)
      let timestamp ← Js.lift (getProp respuesta "timestamp")
      Js.modifyPage (fun p =>
        { p with resultadoCotizacion :=
            (mostrarResultado (cotizacionContenido html (env.toLocaleString timestamp))
              p.resultadoCotizacion) })
      Js.modifyPage (fun p => { p with formCotizacion := p.formCotizacion.reset }))
      (fun error =>
        Js.modifyPage (fun p =>
          { p with resultadoCotizacion := mostrarError error.message p.resultadoCotizacion }))

/-! ## Input-level handlers wired at start-up -/

/-- A `keypress` event: the key, the four modifier flags, and whether
`preventDefault` has been called. -/
structure KeyboardEvent where
  key : String
  shiftKey : Bool
  ctrlKey : Bool
  altKey : Bool
  metaKey : Bool
  defaultPrevented : Bool
deriving DecidableEq, Repr

/-- The `keypress` listener on the query input.  It returns the event as the
listener leaves it. -/
def consultaInputKeypress (env : Env) (e : KeyboardEvent) : Js KeyboardEvent :=
  if e.key = "Enter" && !e.shiftKey then do
    let e := { e with defaultPrevented := true }
    Js.fireAndForget (realizarConsulta env)
    pure e
  else
    pure e

/-- The `change` listener on the upload input. -/
def archivoInputChange : Js Unit := do
  let file := (← Js.getPage).archivoInput.head?
  match file with
  | none => pure ()
  | some file =>
    let fileExtension := fileExtension file.name
    if !allowedTypes.contains fileExtension then
      Js.emit (.alert "Tipo de archivo no permitido. Solo se aceptan: PDF, TXT, CSV, XLSX, DOCX")
      Js.modifyPage (fun p => { p with archivoInput := [] })
    else if file.size > 10 * 1024 * 1024 then
      Js.emit (.alert "El archivo es demasiado grande. Máximo 10MB")
      Js.modifyPage (fun p => { p with archivoInput := [] })
    else
      pure ()

/-! ## Sample worlds -/

/-- An element with no content, hidden. -/
def elementoVacio : Element := { innerHTML := "", className := "", display := "none" }

/-- A page as it is before any interaction: empty inputs, hidden regions. -/
def paginaVacia : Page :=
  { connectionStatus := elementoVacio, consultaInput := "", contextoInput := "",
    resultadoConsulta := elementoVacio, archivoInput := [], tipoAnalisis := "general",
    instruccionesAnalisis := "", resultadoAnalisis := elementoVacio,
    formCotizacion := { entries := [], defaults := [] }, resultadoCotizacion := elementoVacio }

/-- A backend that cannot be reached: every `fetch` rejects. -/
def envSinRed : Env :=
  { fetch := fun _ => .error ⟨"TypeError", "Failed to fetch"⟩, toLocaleString := fun _ => "Invalid Date" }

/-- A backend that answers every request with the same response. -/
def envCon (r : Response) : Env :=
  { fetch := fun _ => .ok r, toLocaleString := fun _ => "1/1/2024, 12:00:00 a. m." }

/-- A gateway's answer: status 502 with an HTML body, on which
`response.json()` rejects. -/
def respuesta502 : Response :=
  { status := 502, statusText := "Bad Gateway",
    json := .error ⟨"SyntaxError", "Unexpected token '<', \"<html>\" is not valid JSON"⟩ }

/-- A backend error of the expected shape: status 404, body the object with
`error` 'No existe'. -/
def respuesta404 : Response :=
  { status := 404, statusText := "Not Found", json := .ok (.obj [("error", .str "No existe")]) }

/-- A backend error whose `error` field is an object with a member named
`toString`: status 400, body `{"error":{"toString":1}}`. -/
def respuesta400 : Response :=
  { status := 400, statusText := "Bad Request",
    json := .ok (.obj [("error", .obj [("toString", .num ⟨"1", false⟩)])]) }

/-- A health answer with status 201 and service name 'X'. -/
def respuesta201 : Response :=
  { status := 201, statusText := "Created", json := .ok (.obj [("service", .str "X")]) }

/-- A bare return keystroke with the control key held. -/
def ctrlEnter : KeyboardEvent :=
  { key := "Enter", shiftKey := false, ctrlKey := true, altKey := false, metaKey := false,
    defaultPrevented := false }

/-- A backend that answers the health request with 200 and service 'X' and
is unreachable for every other request. -/
def envSoloHealth : Env :=
  { fetch := fun req =>
      if req.url = API_BASE_URL ++ "/health" then
        .ok ⟨200, "OK", .ok (.obj [("service", .str "X")])⟩
      else .error ⟨"TypeError", "Failed to fetch"⟩,
    toLocaleString := fun _ => "Invalid Date" }

/-! ## Theorems -/

/-! ### Strings: helper lemmas -/

theorem splitChars_ne_nil (sep : Char) (s : List Char) : splitChars sep s ≠ [] := by
  cases s with
  | nil => simp [splitChars]
  | cons c cs =>
    simp only [splitChars]
    split
    · simp
    · split <;> simp

theorem splitChars_of_not_mem (sep : Char) (s : List Char) (h : sep ∉ s) :
    splitChars sep s = [s] := by
  induction s with
  | nil => rfl
  | cons c cs ih =>
    have hc : ¬ c = sep := fun hc => h (by simp [hc])
    have hcs : sep ∉ cs := fun hm => h (List.mem_cons_of_mem _ hm)
    simp [splitChars, hc, ih hcs]

theorem splitChars_append_sep (sep : Char) (pre suf : List Char) :
    splitChars sep (pre ++ sep :: suf) = splitChars sep pre ++ splitChars sep suf := by
  induction pre with
  | nil => simp [splitChars]
  | cons c cs ih =>
    by_cases hc : c = sep
    · simp [splitChars, hc, ih]
    · simp only [List.cons_append, splitChars, hc, if_false, List.append_eq]
      rw [ih]
      cases hsp : splitChars sep cs with
      | nil => exact absurd hsp (splitChars_ne_nil sep cs)
      | cons seg segs => simp

theorem getLastD_append_of_ne_nil {α : Type} (xs ys : List α) (d : α) (h : ys ≠ []) :
    (xs ++ ys).getLastD d = ys.getLastD d := by
  cases ys with
  | nil => exact absurd rfl h
  | cons y ys =>
    rw [List.getLastD_eq_getLast?, List.getLastD_eq_getLast?, List.getLast?_append]
    rw [List.getLast?_eq_getLast _ h]
    rfl

/-- The source's `split('.').pop()` is the text after the last dot, the whole
name when it holds no dot. -/
theorem splitPop_eq_textAfterLastDot (name : String) :
    splitPop name = textAfterLastDot name := by
  unfold splitPop textAfterLastDot
  congr 1
  have hsplit := List.takeWhile_append_dropWhile (fun c => c != '.') name.data.reverse
  have hfree : '.' ∉ (name.data.reverse.takeWhile (fun c => c != '.')).reverse := by
    intro hm
    have := List.mem_takeWhile_imp (List.mem_reverse.mp hm)
    simp at this
  have hname : name.data =
      (name.data.reverse.dropWhile (fun c => c != '.')).reverse
        ++ (name.data.reverse.takeWhile (fun c => c != '.')).reverse := by
    rw [← List.reverse_append, hsplit, List.reverse_reverse]
  cases hd : name.data.reverse.dropWhile (fun c => c != '.') with
  | nil =>
    rw [hd] at hname
    simp only [List.reverse_nil, List.nil_append] at hname
    rw [← hname, splitChars_of_not_mem _ _ (by rw [hname]; exact hfree)]
    rfl
  | cons x d =>
    have hx : x = '.' := by
      have := List.head_dropWhile_not (fun c => c != '.') name.data.reverse
        (by rw [hd]; simp)
      simp [hd] at this
      exact this
    subst hx
    rw [hd] at hname
    conv_lhs => rw [hname]
    rw [List.reverse_cons, List.append_assoc, List.singleton_append,
      splitChars_append_sep, getLastD_append_of_ne_nil _ _ _ (splitChars_ne_nil _ _),
      splitChars_of_not_mem _ _ hfree]
    rfl

theorem not_mem_replaceNewlinesChars (s : List Char) : '\n' ∉ replaceNewlinesChars s := by
  induction s with
  | nil => simp [replaceNewlinesChars]
  | cons c cs ih =>
    simp only [replaceNewlinesChars]
    split
    · simp only [List.mem_cons, not_or]
      exact ⟨by decide, by decide, by decide, by decide, ih⟩
    · rename_i hc
      simp only [List.mem_cons, not_or]
      exact ⟨fun h => hc h.symm, ih⟩

/-- Replacing the line feeds is splitting at them and joining with the `br`
tag. -/
theorem replaceNewlinesChars_eq_split_join (s : List Char) :
    replaceNewlinesChars s = ['<', 'b', 'r', '>'].intercalate (splitChars '\n' s) := by
  induction s with
  | nil => simp [replaceNewlinesChars, splitChars, List.intercalate]
  | cons c cs ih =>
    simp only [replaceNewlinesChars, splitChars]
    split
    · rw [ih]
      cases hsp : splitChars '\n' cs with
      | nil => exact absurd hsp (splitChars_ne_nil _ cs)
      | cons seg segs => simp [List.intercalate]
    · rw [ih]
      cases hsp : splitChars '\n' cs with
      | nil => exact absurd hsp (splitChars_ne_nil _ cs)
      | cons seg segs =>
        cases segs <;> simp [List.intercalate]

/-- C1: when the query input is empty after trimming, whatever the context
input holds, `realizarConsulta` completes with no event added to the log (no
network request is issued) and the page changed only in the query output
region, which holds the error rendering of 'Por favor ingrese una consulta'
and is visible. -/
theorem realizarConsulta_empty_query (env : Env) (w : World)
    (h : trim w.page.consultaInput = "") :
    realizarConsulta env w =
      (.ok (), { page := { w.page with
                    resultadoConsulta := mostrarError "Por favor ingrese una consulta"
                      w.page.resultadoConsulta },
                 log := w.log })
    ∧ (realizarConsulta env w).2.log = w.log
    ∧ (realizarConsulta env w).2.page.resultadoConsulta.innerHTML
        = errorMarkup "Por favor ingrese una consulta"
    ∧ (realizarConsulta env w).2.page.resultadoConsulta.display = "block" := by
  have key : realizarConsulta env w =
      (.ok (), { page := { w.page with
                    resultadoConsulta := mostrarError "Por favor ingrese una consulta"
                      w.page.resultadoConsulta },
                 log := w.log }) := by
    simp [realizarConsulta, bind, Js.andThen, Js.getPage, Js.modifyPage, h]
  rw [key]
  exact ⟨rfl, rfl, rfl, rfl⟩

/-- Witness for C1: a query of blanks and a line feed, with a context. -/
theorem realizarConsulta_empty_query_witness :
    trim " \t\n" = ""
    ∧ (realizarConsulta envSinRed
        { page := { paginaVacia with consultaInput := " \t\n", contextoInput := "plagas" },
          log := [] }).2.log = [] :=
  ⟨by decide,
   (realizarConsulta_empty_query envSinRed
      { page := { paginaVacia with consultaInput := " \t\n", contextoInput := "plagas" },
        log := [] } (by decide)).2.1⟩

/-- C2: `realizarAnalisis` with a first selected file larger than
10 * 1024 * 1024 bytes completes with no event added to the log (no network
request) and the page changed only in the analysis output region, which holds
the error rendering of the too-large message; with no file selected the same
holds with the select-a-file message. -/
theorem realizarAnalisis_preflight (env : Env) (w : World) :
    (∀ archivo rest, w.page.archivoInput = archivo :: rest →
        archivo.size > 10 * 1024 * 1024 →
        realizarAnalisis env w =
          (.ok (), { page := { w.page with
                        resultadoAnalisis :=
                          mostrarError "El archivo es demasiado grande. Máximo 10MB"
                            w.page.resultadoAnalisis },
                     log := w.log }))
    ∧ (w.page.archivoInput = [] →
        realizarAnalisis env w =
          (.ok (), { page := { w.page with
                        resultadoAnalisis :=
                          mostrarError "Por favor seleccione un archivo" w.page.resultadoAnalisis },
                     log := w.log })) := by
  obtain ⟨page, log⟩ := w
  obtain ⟨estado, consulta, contexto, rConsulta, files, tipo, instrucciones, rAnalisis, form,
    rCotizacion⟩ := page
  constructor
  · intro archivo rest hfiles hsize
    simp only at hfiles
    subst hfiles
    rw [realizarAnalisis]
    dsimp only [bind, Js.andThen, Js.getPage, List.head?]
    rw [if_pos hsize]
    rfl
  · intro hfiles
    simp only at hfiles
    subst hfiles
    rfl

/-- Witness for C2: a file one byte over the limit, and an empty selection. -/
theorem realizarAnalisis_preflight_witness :
    (realizarAnalisis envSinRed
        { page := { paginaVacia with archivoInput := [⟨"informe.pdf", 10485761⟩] }, log := [] }).2.log
      = []
    ∧ (realizarAnalisis envSinRed { page := paginaVacia, log := [] }).2.page.resultadoAnalisis.innerHTML
      = errorMarkup "Por favor seleccione un archivo" := by
  constructor
  · rw [(realizarAnalisis_preflight envSinRed
      { page := { paginaVacia with archivoInput := [⟨"informe.pdf", 10485761⟩] }, log := [] }).1
      ⟨"informe.pdf", 10485761⟩ [] rfl (by decide)]
  · rw [(realizarAnalisis_preflight envSinRed { page := paginaVacia, log := [] }).2 rfl]
    rfl

/-- C3: when the form snapshot has no `tipoServicio` entry or an empty one, or
no `ubicacion` entry or an empty one, `realizarCotizacion` completes with no
event added to the log (no network request), renders the validation error in
the quote output region and leaves the rest of the page, the form included,
as it was. -/
theorem realizarCotizacion_preflight (env : Env) (w : World)
    (h : formGet "tipoServicio" w.page.formCotizacion.entries = none
        ∨ formGet "tipoServicio" w.page.formCotizacion.entries = some ""
        ∨ formGet "ubicacion" w.page.formCotizacion.entries = none
        ∨ formGet "ubicacion" w.page.formCotizacion.entries = some "") :
    realizarCotizacion env w =
      (.ok (), { page := { w.page with
                    resultadoCotizacion :=
                      mostrarError "Por favor complete al menos el tipo de servicio y la ubicación"
                        w.page.resultadoCotizacion },
                 log := w.log })
    ∧ (realizarCotizacion env w).2.log = w.log
    ∧ (realizarCotizacion env w).2.page.formCotizacion = w.page.formCotizacion := by
  have hf : (falsy (formGet "tipoServicio" w.page.formCotizacion.entries)
      || falsy (formGet "ubicacion" w.page.formCotizacion.entries)) = true := by
    rcases h with h | h | h | h <;> simp [h, falsy]
  have key : realizarCotizacion env w =
      (.ok (), { page := { w.page with
                    resultadoCotizacion :=
                      mostrarError "Por favor complete al menos el tipo de servicio y la ubicación"
                        w.page.resultadoCotizacion },
                 log := w.log }) := by
    simp only [realizarCotizacion, bind, Js.andThen, Js.getPage, Js.modifyPage, hf]
    rfl
  rw [key]
  exact ⟨rfl, rfl, rfl⟩

/-- Witness for C3: a form with a service type and an empty location. -/
theorem realizarCotizacion_preflight_witness :
    (realizarCotizacion envSinRed
        { page := { paginaVacia with
                      formCotizacion :=
                        { entries := [("tipoServicio", "fumigacion"), ("ubicacion", "")],
                          defaults := [] } },
          log := [] }).2.log = [] :=
  (realizarCotizacion_preflight envSinRed
      { page := { paginaVacia with
                    formCotizacion :=
                      { entries := [("tipoServicio", "fumigacion"), ("ubicacion", "")],
                        defaults := [] } },
        log := [] } (by decide)).2.1

/-- C4: when the first selected file has an extension (the text after the
last dot of its name, lower-cased; this is what the handler computes) outside
pdf, txt, csv, xlsx, docx, the file-change handler raises the file-type alert,
and only that alert, and empties the input, whatever the size of the file. -/
theorem archivoInputChange_disallowed_extension (w : World) (file : FileInfo)
    (rest : List FileInfo) (hfile : w.page.archivoInput = file :: rest)
    (hext : toLowerCase (textAfterLastDot file.name) ∉ allowedTypes) :
    fileExtension file.name = toLowerCase (textAfterLastDot file.name)
    ∧ archivoInputChange w =
        (.ok (), { page := { w.page with archivoInput := [] },
                   log := w.log ++
                     [.alert "Tipo de archivo no permitido. Solo se aceptan: PDF, TXT, CSV, XLSX, DOCX"] }) := by
  have hfe : fileExtension file.name = toLowerCase (textAfterLastDot file.name) := by
    rw [fileExtension, splitPop_eq_textAfterLastDot]
  refine ⟨hfe, ?_⟩
  have hnot : fileExtension file.name ∉ allowedTypes := by
    rw [hfe]
    exact hext
  simp [archivoInputChange, bind, Js.andThen, Js.getPage, Js.modifyPage, Js.emit, hfile, hnot]

/-- Witness for C4: an executable of 20 MiB gets the file-type alert, not the
size alert. -/
theorem archivoInputChange_disallowed_extension_witness :
    toLowerCase (textAfterLastDot "setup.EXE") = "exe"
    ∧ 20971520 > 10 * 1024 * 1024
    ∧ archivoInputChange
        { page := { paginaVacia with archivoInput := [⟨"setup.EXE", 20971520⟩] }, log := [] }
      = (.ok (), { page := { paginaVacia with archivoInput := [] },
                   log := [.alert "Tipo de archivo no permitido. Solo se aceptan: PDF, TXT, CSV, XLSX, DOCX"] }) :=
  ⟨by decide, by decide,
   (archivoInputChange_disallowed_extension
      { page := { paginaVacia with archivoInput := [⟨"setup.EXE", 20971520⟩] }, log := [] }
      ⟨"setup.EXE", 20971520⟩ [] rfl (by decide)).2⟩

/-- C5: when the query is non-empty after trimming and the backend answers
the consulta request with a 2xx response whose JSON body has the string `r`
under `respuesta`, `realizarConsulta` completes, the query output region holds
the success rendering whose answer is `r` with every line feed replaced by the
`br` tag (it holds no line feed; it is `r` split at line feeds and joined by
the tag), and both the query input and the context input are empty. -/
theorem realizarConsulta_success (env : Env) (w : World) (resp : Response) (body : Json)
    (r : String)
    (hq : trim w.page.consultaInput ≠ "")
    (hfetch : env.fetch (consultaRequest (trim w.page.consultaInput) (trim w.page.contextoInput))
        = .ok resp)
    (hok : resp.ok = true)
    (hjson : resp.json = .ok body)
    (hr : getProp body "respuesta" = .ok (some (.str r))) :
    (realizarConsulta env w).1 = .ok ()
    ∧ (∃ ts, getProp body "timestamp" = .ok ts
        ∧ (realizarConsulta env w).2.page.resultadoConsulta.innerHTML
            = resultadoMarkup (consultaContenido (replaceNewlines r) (env.toLocaleString ts)))
    ∧ '\n' ∉ (replaceNewlines r).data
    ∧ (replaceNewlines r).data = ['<', 'b', 'r', '>'].intercalate (splitChars '\n' r.data)
    ∧ (realizarConsulta env w).2.page.consultaInput = ""
    ∧ (realizarConsulta env w).2.page.contextoInput = "" := by
  obtain ⟨ts, hts⟩ : ∃ ts, getProp body "timestamp" = .ok ts := by
    cases body <;> simp [getProp] at hr ⊢
  have key : realizarConsulta env w =
      (.ok (), { page := { w.page with
                    resultadoConsulta :=
                      mostrarResultado
                        (consultaContenido (replaceNewlines r) (env.toLocaleString ts))
                        w.page.resultadoConsulta,
                    consultaInput := "", contextoInput := "" },
                 log := w.log ++
                   [.fetch (consultaRequest (trim w.page.consultaInput)
                      (trim w.page.contextoInput))] }) := by
    simp [realizarConsulta, consultarGemini, fetch, bind, Js.andThen, Js.tryCatch, Js.getPage,
      Js.modifyPage, Js.emit, Js.lift, hq, hfetch, hok, hjson, hr, hts, callReplace,
      mostrarResultado, mostrarLoading]
  rw [key]
  exact ⟨rfl, ⟨ts, hts, rfl⟩, not_mem_replaceNewlinesChars _, replaceNewlinesChars_eq_split_join _,
    rfl, rfl⟩

/-- Witness for C5: the spec's scenario, answer 'line1\nline2'. -/
theorem realizarConsulta_success_witness :
    replaceNewlines "line1\nline2" = "line1<br>line2"
    ∧ (realizarConsulta
        (envCon ⟨200, "OK", .ok (.obj [("respuesta", .str "line1\nline2"),
          ("timestamp", .str "2024-01-01T00:00:00Z")])⟩)
        { page := { paginaVacia with consultaInput := "a" }, log := [] }).2.page.consultaInput = "" :=
  ⟨by decide,
   (realizarConsulta_success
      (envCon ⟨200, "OK", .ok (.obj [("respuesta", .str "line1\nline2"),
        ("timestamp", .str "2024-01-01T00:00:00Z")])⟩)
      { page := { paginaVacia with consultaInput := "a" }, log := [] }
      ⟨200, "OK", .ok (.obj [("respuesta", .str "line1\nline2"),
        ("timestamp", .str "2024-01-01T00:00:00Z")])⟩
      (.obj [("respuesta", .str "line1\nline2"), ("timestamp", .str "2024-01-01T00:00:00Z")])
      "line1\nline2" (by decide) rfl (by decide) rfl (by simp [getProp, lookupKey])).2.2.2.2.1⟩

/-- C6, as stated, fails: a 502 response whose body is not JSON makes
`consultarGemini` fail with the parser's error, which is neither an `error`
field of the body (there is no parsed body) nor the fallback message. -/
theorem consultarGemini_unparseable_error_body :
    respuesta502.ok = false
    ∧ respuesta502.json = .error ⟨"SyntaxError", "Unexpected token '<', \"<html>\" is not valid JSON"⟩
    ∧ (consultarGemini (envCon respuesta502) "a" "" { page := paginaVacia, log := [] }).1
        = .error ⟨"SyntaxError", "Unexpected token '<', \"<html>\" is not valid JSON"⟩
    ∧ "Unexpected token '<', \"<html>\" is not valid JSON" ≠ "Error en la consulta" := by
  refine ⟨by decide, rfl, ?_, by decide⟩
  simp [consultarGemini, fetch, bind, Js.andThen, Js.tryCatch, Js.emit, Js.lift, Js.throwJs,
    envCon, respuesta502, Response.ok]

/-! ### The error an operation builds from the `error` field -/

theorem truthy_of_not_convertible (j : Json) (h : j.convertible = false) :
    truthy (some j) = true := by
  cases j <;> simp [Json.convertible, truthy] at h ⊢

theorem newErrorOr_of_convertible (v : Option Json) (fallback : String)
    (h : ∀ j, v = some j → j.convertible = true) :
    newErrorOr v fallback = .ok (newError (messageOr v fallback)) := by
  cases v with
  | none => simp [newErrorOr, messageOr, truthy]
  | some j =>
    have hj := h j rfl
    cases ht : truthy (some j) <;> simp [newErrorOr, messageOr, interp, ht, hj]

theorem newErrorOr_of_not_convertible (j : Json) (fallback : String)
    (h : j.convertible = false) :
    newErrorOr (some j) fallback = .error errorNoPrimitive := by
  simp [newErrorOr, truthy_of_not_convertible j h, h]

/-- C6, amended: for each of `consultarGemini`, `analizarDocumento` and
`generarCotizacion` and every response `resp` the backend gives to its
request: outside 2xx the operation fails (it returns no payload); outside 2xx
with a body that parses to JSON on which `error` can be read, when the `error`
field converts to a string (it is absent, null, a boolean, a number, a string,
an object with no member named `toString`, or an array of such values), the
failure is `new Error` of the string form of the field when the field is
truthy (the field itself when it is a non-empty string) and of the operation's
fallback message otherwise (also when the field is absent); when the field
does not convert, the failure is the `TypeError` of the conversion; within 2xx
with a body that parses, the operation returns the parsed body unchanged; and
when the body does not parse, the failure is the parser's. -/
theorem domain_operations_contract (env : Env) (w : World) (resp : Response) :
    (∀ consulta contexto, env.fetch (consultaRequest consulta contexto) = .ok resp →
      (resp.ok = false → ∃ e, (consultarGemini env consulta contexto w).1 = .error e)
      ∧ (resp.ok = false → ∀ body v, resp.json = .ok body → getProp body "error" = .ok v →
          (∀ j, v = some j → j.convertible = true) →
          (consultarGemini env consulta contexto w).1
            = .error (newError (messageOr v "Error en la consulta")))
      ∧ (resp.ok = false → ∀ body j, resp.json = .ok body →
          getProp body "error" = .ok (some j) → j.convertible = false →
          (consultarGemini env consulta contexto w).1 = .error errorNoPrimitive)
      ∧ (resp.ok = true → ∀ body, resp.json = .ok body →
          (consultarGemini env consulta contexto w).1 = .ok body)
      ∧ (∀ e, resp.json = .error e → (consultarGemini env consulta contexto w).1 = .error e))
    ∧ (∀ archivo tipoAnalisis instrucciones,
      env.fetch (analisisRequest archivo tipoAnalisis instrucciones) = .ok resp →
      (resp.ok = false →
        ∃ e, (analizarDocumento env archivo tipoAnalisis instrucciones w).1 = .error e)
      ∧ (resp.ok = false → ∀ body v, resp.json = .ok body → getProp body "error" = .ok v →
          (∀ j, v = some j → j.convertible = true) →
          (analizarDocumento env archivo tipoAnalisis instrucciones w).1
            = .error (newError (messageOr v "Error analizando documento")))
      ∧ (resp.ok = false → ∀ body j, resp.json = .ok body →
          getProp body "error" = .ok (some j) → j.convertible = false →
          (analizarDocumento env archivo tipoAnalisis instrucciones w).1
            = .error errorNoPrimitive)
      ∧ (resp.ok = true → ∀ body, resp.json = .ok body →
          (analizarDocumento env archivo tipoAnalisis instrucciones w).1 = .ok body)
      ∧ (∀ e, resp.json = .error e →
          (analizarDocumento env archivo tipoAnalisis instrucciones w).1 = .error e))
    ∧ (∀ datos, env.fetch (cotizacionRequest datos) = .ok resp →
      (resp.ok = false → ∃ e, (generarCotizacion env datos w).1 = .error e)
      ∧ (resp.ok = false → ∀ body v, resp.json = .ok body → getProp body "error" = .ok v →
          (∀ j, v = some j → j.convertible = true) →
          (generarCotizacion env datos w).1
            = .error (newError (messageOr v "Error generando cotización")))
      ∧ (resp.ok = false → ∀ body j, resp.json = .ok body →
          getProp body "error" = .ok (some j) → j.convertible = false →
          (generarCotizacion env datos w).1 = .error errorNoPrimitive)
      ∧ (resp.ok = true → ∀ body, resp.json = .ok body →
          (generarCotizacion env datos w).1 = .ok body)
      ∧ (∀ e, resp.json = .error e → (generarCotizacion env datos w).1 = .error e))
    ∧ (∀ s fallback, s ≠ "" → messageOr (some (.str s)) fallback = s)
    ∧ (∀ fallback, messageOr none fallback = fallback) := by
  refine ⟨?_, ?_, ?_, ?_, ?_⟩
  · intro consulta contexto hfetch
    refine ⟨?_, ?_, ?_, ?_, ?_⟩
    · intro hok
      cases hj : resp.json with
      | error e =>
        exact ⟨e, by simp [consultarGemini, fetch, bind, Js.andThen, Js.tryCatch, Js.emit,
          Js.lift, Js.throwJs, hfetch, hok, hj]⟩
      | ok body =>
        cases hp : getProp body "error" with
        | error e =>
          exact ⟨e, by simp [consultarGemini, fetch, bind, Js.andThen, Js.tryCatch, Js.emit,
            Js.lift, Js.throwJs, hfetch, hok, hj, hp]⟩
        | ok v =>
          cases hn : newErrorOr v "Error en la consulta" with
          | error e =>
            exact ⟨e, by simp [consultarGemini, fetch, bind, Js.andThen, Js.tryCatch, Js.emit,
              Js.lift, Js.throwJs, hfetch, hok, hj, hp, hn]⟩
          | ok e =>
            exact ⟨e, by simp [consultarGemini, fetch, bind, Js.andThen, Js.tryCatch, Js.emit,
              Js.lift, Js.throwJs, hfetch, hok, hj, hp, hn]⟩
    · intro hok body v hj hp hconv
      simp [consultarGemini, fetch, bind, Js.andThen, Js.tryCatch, Js.emit, Js.lift,
        Js.throwJs, hfetch, hok, hj, hp, newErrorOr_of_convertible v _ hconv]
    · intro hok body j hj hp hconv
      simp [consultarGemini, fetch, bind, Js.andThen, Js.tryCatch, Js.emit, Js.lift,
        Js.throwJs, hfetch, hok, hj, hp, newErrorOr_of_not_convertible j _ hconv]
    · intro hok body hj
      simp [consultarGemini, fetch, bind, Js.andThen, Js.tryCatch, Js.emit, Js.lift,
        Js.throwJs, hfetch, hok, hj]
    · intro e hj
      cases hok : resp.ok <;>
        simp [consultarGemini, fetch, bind, Js.andThen, Js.tryCatch, Js.emit, Js.lift,
          Js.throwJs, hfetch, hok, hj]
  · intro archivo tipoAnalisis instrucciones hfetch
    refine ⟨?_, ?_, ?_, ?_, ?_⟩
    · intro hok
      cases hj : resp.json with
      | error e =>
        exact ⟨e, by simp [analizarDocumento, fetch, bind, Js.andThen, Js.tryCatch, Js.emit,
          Js.lift, Js.throwJs, hfetch, hok, hj]⟩
      | ok body =>
        cases hp : getProp body "error" with
        | error e =>
          exact ⟨e, by simp [analizarDocumento, fetch, bind, Js.andThen, Js.tryCatch, Js.emit,
            Js.lift, Js.throwJs, hfetch, hok, hj, hp]⟩
        | ok v =>
          cases hn : newErrorOr v "Error analizando documento" with
          | error e =>
            exact ⟨e, by simp [analizarDocumento, fetch, bind, Js.andThen, Js.tryCatch,
              Js.emit, Js.lift, Js.throwJs, hfetch, hok, hj, hp, hn]⟩
          | ok e =>
            exact ⟨e, by simp [analizarDocumento, fetch, bind, Js.andThen, Js.tryCatch,
              Js.emit, Js.lift, Js.throwJs, hfetch, hok, hj, hp, hn]⟩
    · intro hok body v hj hp hconv
      simp [analizarDocumento, fetch, bind, Js.andThen, Js.tryCatch, Js.emit, Js.lift,
        Js.throwJs, hfetch, hok, hj, hp, newErrorOr_of_convertible v _ hconv]
    · intro hok body j hj hp hconv
      simp [analizarDocumento, fetch, bind, Js.andThen, Js.tryCatch, Js.emit, Js.lift,
        Js.throwJs, hfetch, hok, hj, hp, newErrorOr_of_not_convertible j _ hconv]
    · intro hok body hj
      simp [analizarDocumento, fetch, bind, Js.andThen, Js.tryCatch, Js.emit, Js.lift,
        Js.throwJs, hfetch, hok, hj]
    · intro e hj
      cases hok : resp.ok <;>
        simp [analizarDocumento, fetch, bind, Js.andThen, Js.tryCatch, Js.emit, Js.lift,
          Js.throwJs, hfetch, hok, hj]
  · intro datos hfetch
    refine ⟨?_, ?_, ?_, ?_, ?_⟩
    · intro hok
      cases hj : resp.json with
      | error e =>
        exact ⟨e, by simp [generarCotizacion, fetch, bind, Js.andThen, Js.tryCatch, Js.emit,
          Js.lift, Js.throwJs, hfetch, hok, hj]⟩
      | ok body =>
        cases hp : getProp body "error" with
        | error e =>
          exact ⟨e, by simp [generarCotizacion, fetch, bind, Js.andThen, Js.tryCatch, Js.emit,
            Js.lift, Js.throwJs, hfetch, hok, hj, hp]⟩
        | ok v =>
          cases hn : newErrorOr v "Error generando cotización" with
          | error e =>
            exact ⟨e, by simp [generarCotizacion, fetch, bind, Js.andThen, Js.tryCatch,
              Js.emit, Js.lift, Js.throwJs, hfetch, hok, hj, hp, hn]⟩
          | ok e =>
            exact ⟨e, by simp [generarCotizacion, fetch, bind, Js.andThen, Js.tryCatch,
              Js.emit, Js.lift, Js.throwJs, hfetch, hok, hj, hp, hn]⟩
    · intro hok body v hj hp hconv
      simp [generarCotizacion, fetch, bind, Js.andThen, Js.tryCatch, Js.emit, Js.lift,
        Js.throwJs, hfetch, hok, hj, hp, newErrorOr_of_convertible v _ hconv]
    · intro hok body j hj hp hconv
      simp [generarCotizacion, fetch, bind, Js.andThen, Js.tryCatch, Js.emit, Js.lift,
        Js.throwJs, hfetch, hok, hj, hp, newErrorOr_of_not_convertible j _ hconv]
    · intro hok body hj
      simp [generarCotizacion, fetch, bind, Js.andThen, Js.tryCatch, Js.emit, Js.lift,
        Js.throwJs, hfetch, hok, hj]
    · intro e hj
      cases hok : resp.ok <;>
        simp [generarCotizacion, fetch, bind, Js.andThen, Js.tryCatch, Js.emit, Js.lift,
          Js.throwJs, hfetch, hok, hj]
  · intro s fallback hs
    simp [messageOr, truthy, interp, Json.toStr, hs]
  · intro fallback
    simp [messageOr, truthy]

/-- Witness for C6: a 404 whose body is the object with `error` 'No existe'
makes `consultarGemini` fail with that message; a 400 whose `error` is an
object with a member named `toString` makes it fail with the `TypeError`. -/
theorem domain_operations_contract_witness :
    (consultarGemini (envCon respuesta404) "a" "" { page := paginaVacia, log := [] }).1
      = .error (newError (messageOr (some (.str "No existe")) "Error en la consulta"))
    ∧ messageOr (some (.str "No existe")) "Error en la consulta" = "No existe"
    ∧ (consultarGemini (envCon respuesta400) "a" "" { page := paginaVacia, log := [] }).1
      = .error errorNoPrimitive :=
  ⟨((domain_operations_contract (envCon respuesta404) { page := paginaVacia, log := [] }
      respuesta404).1 "a" "" rfl).2.1 (by decide) (.obj [("error", .str "No existe")])
      (some (.str "No existe")) rfl (by simp [getProp, lookupKey])
      (by intro j hj; cases hj; simp [Json.convertible]),
   by decide,
   ((domain_operations_contract (envCon respuesta400) { page := paginaVacia, log := [] }
      respuesta400).1 "a" "" rfl).2.2.1 (by decide)
      (.obj [("error", .obj [("toString", .num ⟨"1", false⟩)])])
      (.obj [("toString", .num ⟨"1", false⟩)]) rfl (by simp [getProp, lookupKey])
      (by simp [Json.convertible, lookupKey])⟩

/-- The secondary fetch never touches the page, whatever its outcome. -/
theorem testPublicInfo_page (env : Env) (w : World) :
    (testPublicInfo env w).2.page = w.page := by
  cases hfetch : env.fetch publicInfoRequest with
  | error e =>
    simp [testPublicInfo, fetch, bind, Js.andThen, Js.tryCatch, Js.emit, Js.lift, hfetch]
  | ok resp =>
    cases hok : resp.ok with
    | false =>
      simp [testPublicInfo, fetch, bind, Js.andThen, Js.tryCatch, Js.emit, Js.lift, pure,
        Js.ret, hfetch, hok]
    | true =>
      cases hj : resp.json <;>
        simp [testPublicInfo, fetch, bind, Js.andThen, Js.tryCatch, Js.emit, Js.lift, pure,
          Js.ret, hfetch, hok, hj]

/-- C7, as stated, fails: a health response with status 201 (not 200) and
body with service 'X' leaves the badge in the connected state and makes
`verificarConexion` return true. -/
theorem verificarConexion_status_201 :
    respuesta201.status ≠ 200
    ∧ (verificarConexion (envCon respuesta201) { page := paginaVacia, log := [] }).1 = .ok true
    ∧ (verificarConexion (envCon respuesta201)
        { page := paginaVacia, log := [] }).2.page.connectionStatus
        = { innerHTML := "🟢 X Conectado", className := "connection-status connected",
            display := "none" } := by
  refine ⟨by decide, ?_, ?_⟩ <;>
    simp [verificarConexion, testPublicInfo, fetch, bind, Js.andThen, Js.tryCatch, Js.emit,
      Js.lift, Js.throwJs, Js.modifyPage, Js.fireAndForget, pure, Js.ret, envCon, respuesta201,
      Response.ok, getProp, lookupKey, interp, Json.toStr, paginaVacia, elementoVacio]

/-- C7, amended: when the health request gets a response with a status from
200 to 299 whose body parses to JSON on which `service` reads as `v`, the badge
ends in the connected state with text '🟢 ' + `v` + ' Conectado' (the name
itself when `v` is a string) and `verificarConexion` returns true, whatever
the backend does with any other request (the public-info one included); when
the response has a status outside 200 to 299, and when the request fails at
the network, the badge ends in the disconnected state ('🔴 Backend Sin
Conexión') and the function returns false; and in every case the function
returns a boolean, it never throws. -/
theorem verificarConexion_badge (env : Env) (w : World) :
    (∀ resp data v, env.fetch healthRequest = .ok resp → resp.ok = true →
        resp.json = .ok data → getProp data "service" = .ok v →
        (verificarConexion env w).1 = .ok true
        ∧ (verificarConexion env w).2.page.connectionStatus.innerHTML
            = "🟢 " ++ interp v ++ " Conectado"
        ∧ (verificarConexion env w).2.page.connectionStatus.className
            = "connection-status connected")
    ∧ (∀ name : String, interp (some (.str name)) = name)
    ∧ (∀ resp, env.fetch healthRequest = .ok resp → resp.ok = false →
        (verificarConexion env w).1 = .ok false
        ∧ (verificarConexion env w).2.page.connectionStatus.innerHTML = "🔴 Backend Sin Conexión"
        ∧ (verificarConexion env w).2.page.connectionStatus.className
            = "connection-status disconnected")
    ∧ (∀ e, env.fetch healthRequest = .error e →
        (verificarConexion env w).1 = .ok false
        ∧ (verificarConexion env w).2.page.connectionStatus.innerHTML = "🔴 Backend Sin Conexión"
        ∧ (verificarConexion env w).2.page.connectionStatus.className
            = "connection-status disconnected")
    ∧ (∃ b, (verificarConexion env w).1 = .ok b) := by
  refine ⟨?_, ?_, ?_, ?_, ?_⟩
  · intro resp data v hfetch hok hj hp
    simp [verificarConexion, fetch, bind, Js.andThen, Js.tryCatch, Js.emit, Js.lift,
      Js.modifyPage, Js.fireAndForget, pure, Js.ret, hfetch, hok, hj, hp, testPublicInfo_page]
  · intro name
    rfl
  · intro resp hfetch hok
    simp [verificarConexion, fetch, bind, Js.andThen, Js.tryCatch, Js.emit, Js.lift,
      Js.throwJs, Js.modifyPage, pure, Js.ret, hfetch, hok]
  · intro e hfetch
    simp [verificarConexion, fetch, bind, Js.andThen, Js.tryCatch, Js.emit, Js.lift,
      Js.modifyPage, pure, Js.ret, hfetch]
  · cases hfetch : env.fetch healthRequest with
    | error e =>
      exact ⟨false, by simp [verificarConexion, fetch, bind, Js.andThen, Js.tryCatch, Js.emit,
        Js.lift, Js.modifyPage, pure, Js.ret, hfetch]⟩
    | ok resp =>
      cases hok : resp.ok with
      | false =>
        exact ⟨false, by simp [verificarConexion, fetch, bind, Js.andThen, Js.tryCatch,
          Js.emit, Js.lift, Js.throwJs, Js.modifyPage, pure, Js.ret, hfetch, hok]⟩
      | true =>
        cases hj : resp.json with
        | error e =>
          exact ⟨false, by simp [verificarConexion, fetch, bind, Js.andThen, Js.tryCatch,
            Js.emit, Js.lift, Js.modifyPage, pure, Js.ret, hfetch, hok, hj]⟩
        | ok data =>
          cases hp : getProp data "service" with
          | error e =>
            exact ⟨false, by simp [verificarConexion, fetch, bind, Js.andThen, Js.tryCatch,
              Js.emit, Js.lift, Js.modifyPage, pure, Js.ret, hfetch, hok, hj, hp]⟩
          | ok v =>
            exact ⟨true, by simp [verificarConexion, fetch, bind, Js.andThen, Js.tryCatch,
              Js.emit, Js.lift, Js.modifyPage, Js.fireAndForget, pure, Js.ret, hfetch, hok,
              hj, hp]⟩

/-- Witness for C7: a health answer 200 with service 'X' while every other
request fails at the network; and an unreachable backend. -/
theorem verificarConexion_badge_witness :
    (verificarConexion envSoloHealth { page := paginaVacia, log := [] }).1 = .ok true
    ∧ (verificarConexion envSoloHealth
        { page := paginaVacia, log := [] }).2.page.connectionStatus.innerHTML
        = "🟢 " ++ interp (some (.str "X")) ++ " Conectado"
    ∧ (verificarConexion envSinRed { page := paginaVacia, log := [] }).1 = .ok false :=
  ⟨((verificarConexion_badge envSoloHealth { page := paginaVacia, log := [] }).1
      ⟨200, "OK", .ok (.obj [("service", .str "X")])⟩ (.obj [("service", .str "X")])
      (some (.str "X")) (by simp [envSoloHealth, healthRequest]) (by decide) rfl
      (by simp [getProp, lookupKey])).1,
   ((verificarConexion_badge envSoloHealth { page := paginaVacia, log := [] }).1
      ⟨200, "OK", .ok (.obj [("service", .str "X")])⟩ (.obj [("service", .str "X")])
      (some (.str "X")) (by simp [envSoloHealth, healthRequest]) (by decide) rfl
      (by simp [getProp, lookupKey])).2.1,
   ((verificarConexion_badge envSinRed { page := paginaVacia, log := [] }).2.2.2.1
      ⟨"TypeError", "Failed to fetch"⟩ rfl).1⟩

/-- C8, as stated, fails: a return keystroke with the control key held (a
modifier) has its default action prevented and submits the query: the log
gains the network request of `realizarConsulta`. -/
theorem consultaInputKeypress_ctrl_enter :
    ctrlEnter.ctrlKey = true
    ∧ (consultaInputKeypress envSinRed ctrlEnter
        { page := { paginaVacia with consultaInput := "hola" }, log := [] }).1
        = .ok { ctrlEnter with defaultPrevented := true }
    ∧ (consultaInputKeypress envSinRed ctrlEnter
        { page := { paginaVacia with consultaInput := "hola" }, log := [] }).2.log.map Event.isFetch
        = [true, false] := by
  refine ⟨rfl, ?_, ?_⟩
  · simp [consultaInputKeypress, ctrlEnter, bind, Js.andThen, Js.fireAndForget, pure, Js.ret]
  · have ht : trim "hola" ≠ "" := by decide
    simp [consultaInputKeypress, ctrlEnter, realizarConsulta, consultarGemini, fetch, bind,
      Js.andThen, Js.tryCatch, Js.emit, Js.lift, Js.throwJs, Js.modifyPage, Js.getPage,
      Js.fireAndForget, pure, Js.ret, envSinRed, paginaVacia, ht, Event.isFetch]

/-- C8, amended: the keyboard handler on the query input prevents the default
action and runs `realizarConsulta` exactly when the key is 'Enter' and the
shift key is not held, whatever the control, alt and meta flags; on every
other keypress it leaves the event and the world as they were. -/
theorem consultaInputKeypress_enter_unless_shift (env : Env) (e : KeyboardEvent) (w : World) :
    (e.key = "Enter" ∧ e.shiftKey = false →
        consultaInputKeypress env e w
          = (.ok { e with defaultPrevented := true }, (realizarConsulta env w).2))
    ∧ (¬ (e.key = "Enter" ∧ e.shiftKey = false) → consultaInputKeypress env e w = (.ok e, w)) := by
  constructor
  · rintro ⟨hk, hs⟩
    simp [consultaInputKeypress, hk, hs, bind, Js.andThen, Js.fireAndForget, pure, Js.ret]
  · intro h
    have hc : (decide (e.key = "Enter") && !e.shiftKey) = false := by
      by_cases hk : e.key = "Enter"
      · cases hs : e.shiftKey
        · exact absurd ⟨hk, hs⟩ h
        · simp
      · simp [hk]
    simp [consultaInputKeypress, hc, pure, Js.ret]

/-- Witness for C8: a bare return submits; a shifted return does nothing. -/
theorem consultaInputKeypress_enter_unless_shift_witness :
    consultaInputKeypress envSinRed ⟨"Enter", false, false, false, false, false⟩
        { page := paginaVacia, log := [] }
      = (.ok ⟨"Enter", false, false, false, false, true⟩,
          (realizarConsulta envSinRed { page := paginaVacia, log := [] }).2)
    ∧ consultaInputKeypress envSinRed ⟨"Enter", true, false, false, false, false⟩
        { page := paginaVacia, log := [] }
      = (.ok ⟨"Enter", true, false, false, false, false⟩, { page := paginaVacia, log := [] }) :=
  ⟨(consultaInputKeypress_enter_unless_shift envSinRed ⟨"Enter", false, false, false, false, false⟩
      { page := paginaVacia, log := [] }).1 ⟨rfl, rfl⟩,
   (consultaInputKeypress_enter_unless_shift envSinRed ⟨"Enter", true, false, false, false, false⟩
      { page := paginaVacia, log := [] }).2 (by decide)⟩

/-- C9: for each of `mostrarLoading`, `mostrarError`, `mostrarResultado`, the
content after the call does not depend on the region's prior state and the
region is visible; after any sequence of such calls the content is that of the
last call alone; and repeating a call changes nothing. -/
theorem render_call_replaces (c : RenderCall) (e e' : Element) (cs : List RenderCall) :
    (c.apply e).innerHTML = (c.apply e').innerHTML
    ∧ (c.apply e).display = "block"
    ∧ (applyCalls (cs ++ [c]) e).innerHTML = (c.apply e').innerHTML
    ∧ (applyCalls (cs ++ [c]) e).display = "block"
    ∧ c.apply (c.apply e) = c.apply e := by
  have h1 : ∀ a b : Element, (c.apply a).innerHTML = (c.apply b).innerHTML := by
    intro a b
    cases c <;> rfl
  have h2 : ∀ a : Element, (c.apply a).display = "block" := by
    intro a
    cases c <;> rfl
  have h3 : applyCalls (cs ++ [c]) e = c.apply (applyCalls cs e) := by
    simp [applyCalls, List.foldl_append]
  refine ⟨h1 e e', h2 e, ?_, ?_, ?_⟩
  · rw [h3]
    exact h1 _ _
  · rw [h3]
    exact h2 _
  · cases c <;> rfl

/-! ### Renderings are told apart by their first characters -/

theorem string_ne_of_start (p : List Char) (a b : String) (ha : p <+: a.data)
    (hb : ¬ p <+: b.data) : a ≠ b := by
  intro hab
  exact hb (hab ▸ ha)

theorem start_of_start_append (p l r : List Char) (hlen : p.length ≤ l.length)
    (h : p <+: l ++ r) : p <+: l :=
  List.prefix_of_prefix_length_le h (List.prefix_append l r) hlen

set_option maxRecDepth 100000 in
theorem errorMarkup_starts (m : String) :
    ("\n        <div class=\"e" : String).data <+: (errorMarkup m).data := by
  simp only [errorMarkup, String.data_append, List.append_assoc]
  exact List.IsPrefix.trans (by decide) (List.prefix_append _ _)

set_option maxRecDepth 100000 in
theorem resultadoMarkup_starts (c : String) :
    ("\n        <div class=\"r" : String).data <+: (resultadoMarkup c).data := by
  simp only [resultadoMarkup, String.data_append, List.append_assoc]
  exact List.IsPrefix.trans (by decide) (List.prefix_append _ _)

set_option maxRecDepth 100000 in
theorem errorMarkup_ne_loadingMarkup (m : String) : errorMarkup m ≠ loadingMarkup := by
  apply string_ne_of_start _ _ _ (errorMarkup_starts m)
  unfold loadingMarkup
  decide

set_option maxRecDepth 100000 in
theorem resultadoMarkup_ne_loadingMarkup (c : String) : resultadoMarkup c ≠ loadingMarkup := by
  apply string_ne_of_start _ _ _ (resultadoMarkup_starts c)
  unfold loadingMarkup
  decide

set_option maxRecDepth 100000 in
theorem errorMarkup_ne_resultadoMarkup (m c : String) : errorMarkup m ≠ resultadoMarkup c := by
  apply string_ne_of_start _ _ _ (errorMarkup_starts m)
  intro h
  simp only [resultadoMarkup, String.data_append, List.append_assoc] at h
  have h2 := start_of_start_append _ _ _ (by decide) h
  revert h2
  decide

/-! ### The domain operations never touch the page -/

theorem consultarGemini_page (env : Env) (consulta contexto : String) (w : World) :
    (consultarGemini env consulta contexto w).2.page = w.page := by
  cases hfetch : env.fetch (consultaRequest consulta contexto) with
  | error e =>
    simp [consultarGemini, fetch, bind, Js.andThen, Js.tryCatch, Js.emit, Js.lift, Js.throwJs,
      hfetch]
  | ok resp =>
    cases hj : resp.json with
    | error e =>
      cases hok : resp.ok <;>
        simp [consultarGemini, fetch, bind, Js.andThen, Js.tryCatch, Js.emit, Js.lift,
          Js.throwJs, hfetch, hok, hj]
    | ok body =>
      cases hok : resp.ok with
      | true =>
        simp [consultarGemini, fetch, bind, Js.andThen, Js.tryCatch, Js.emit, Js.lift,
          Js.throwJs, hfetch, hok, hj]
      | false =>
        cases hp : getProp body "error" with
        | error e =>
          simp [consultarGemini, fetch, bind, Js.andThen, Js.tryCatch, Js.emit, Js.lift,
            Js.throwJs, hfetch, hok, hj, hp]
        | ok v =>
          cases hn : newErrorOr v "Error en la consulta" <;>
            simp [consultarGemini, fetch, bind, Js.andThen, Js.tryCatch, Js.emit, Js.lift,
              Js.throwJs, hfetch, hok, hj, hp, hn]

theorem analizarDocumento_page (env : Env) (archivo : FileInfo) (tipo instrucciones : String)
    (w : World) : (analizarDocumento env archivo tipo instrucciones w).2.page = w.page := by
  cases hfetch : env.fetch (analisisRequest archivo tipo instrucciones) with
  | error e =>
    simp [analizarDocumento, fetch, bind, Js.andThen, Js.tryCatch, Js.emit, Js.lift, Js.throwJs,
      hfetch]
  | ok resp =>
    cases hj : resp.json with
    | error e =>
      cases hok : resp.ok <;>
        simp [analizarDocumento, fetch, bind, Js.andThen, Js.tryCatch, Js.emit, Js.lift,
          Js.throwJs, hfetch, hok, hj]
    | ok body =>
      cases hok : resp.ok with
      | true =>
        simp [analizarDocumento, fetch, bind, Js.andThen, Js.tryCatch, Js.emit, Js.lift,
          Js.throwJs, hfetch, hok, hj]
      | false =>
        cases hp : getProp body "error" with
        | error e =>
          simp [analizarDocumento, fetch, bind, Js.andThen, Js.tryCatch, Js.emit, Js.lift,
            Js.throwJs, hfetch, hok, hj, hp]
        | ok v =>
          cases hn : newErrorOr v "Error analizando documento" <;>
            simp [analizarDocumento, fetch, bind, Js.andThen, Js.tryCatch, Js.emit, Js.lift,
              Js.throwJs, hfetch, hok, hj, hp, hn]

theorem generarCotizacion_page (env : Env) (datos : Json) (w : World) :
    (generarCotizacion env datos w).2.page = w.page := by
  cases hfetch : env.fetch (cotizacionRequest datos) with
  | error e =>
    simp [generarCotizacion, fetch, bind, Js.andThen, Js.tryCatch, Js.emit, Js.lift, Js.throwJs,
      hfetch]
  | ok resp =>
    cases hj : resp.json with
    | error e =>
      cases hok : resp.ok <;>
        simp [generarCotizacion, fetch, bind, Js.andThen, Js.tryCatch, Js.emit, Js.lift,
          Js.throwJs, hfetch, hok, hj]
    | ok body =>
      cases hok : resp.ok with
      | true =>
        simp [generarCotizacion, fetch, bind, Js.andThen, Js.tryCatch, Js.emit, Js.lift,
          Js.throwJs, hfetch, hok, hj]
      | false =>
        cases hp : getProp body "error" with
        | error e =>
          simp [generarCotizacion, fetch, bind, Js.andThen, Js.tryCatch, Js.emit, Js.lift,
            Js.throwJs, hfetch, hok, hj, hp]
        | ok v =>
          cases hn : newErrorOr v "Error generando cotización" <;>
            simp [generarCotizacion, fetch, bind, Js.andThen, Js.tryCatch, Js.emit, Js.lift,
              Js.throwJs, hfetch, hok, hj, hp, hn]

/-- The outcome of `realizarConsulta`: an error rendering with the rest of the
page untouched, or a success rendering with both inputs emptied. -/
theorem realizarConsulta_outcome (env : Env) (w : World) :
    (realizarConsulta env w).1 = .ok ()
    ∧ ((∃ m, (realizarConsulta env w).2.page
          = { w.page with resultadoConsulta := mostrarError m w.page.resultadoConsulta })
      ∨ (∃ c, (realizarConsulta env w).2.page
          = { w.page with resultadoConsulta := mostrarResultado c w.page.resultadoConsulta,
                          consultaInput := "", contextoInput := "" })) := by
  by_cases hq : trim w.page.consultaInput = ""
  · simp only [realizarConsulta, bind, Js.andThen, Js.getPage, Js.modifyPage, hq, if_true]
    exact ⟨trivial, Or.inl ⟨_, rfl⟩⟩
  · have hpage := consultarGemini_page env (trim w.page.consultaInput)
      (trim w.page.contextoInput)
      { page := { w.page with resultadoConsulta := mostrarLoading w.page.resultadoConsulta },
        log := w.log }
    simp only [realizarConsulta, bind, Js.andThen, Js.getPage, Js.modifyPage, Js.tryCatch,
      Js.lift, hq, if_false]
    generalize consultarGemini env (trim w.page.consultaInput) (trim w.page.contextoInput)
      { page := { w.page with resultadoConsulta := mostrarLoading w.page.resultadoConsulta },
        log := w.log } = res at hpage ⊢
    obtain ⟨r, p2, l2⟩ := res
    simp only at hpage
    subst hpage
    cases r with
    | error e =>
      exact ⟨rfl, Or.inl ⟨e.message, rfl⟩⟩
    | ok respuesta =>
      cases h1 : getProp respuesta "respuesta" with
      | error e =>
        simp only [h1]
        exact ⟨trivial, Or.inl ⟨e.message, rfl⟩⟩
      | ok texto =>
        cases h2 : callReplace "respuesta.respuesta" texto with
        | error e =>
          simp only [h1, h2]
          exact ⟨trivial, Or.inl ⟨e.message, rfl⟩⟩
        | ok html =>
          cases h3 : getProp respuesta "timestamp" with
          | error e =>
            simp only [h1, h2, h3]
            exact ⟨trivial, Or.inl ⟨e.message, rfl⟩⟩
          | ok timestamp =>
            simp only [h1, h2, h3]
            exact ⟨trivial, Or.inr ⟨_, rfl⟩⟩

/-- The outcome of `realizarAnalisis`: an error rendering with the rest of the
page untouched, or a success rendering with the file input and the
instructions emptied. -/
theorem realizarAnalisis_outcome (env : Env) (w : World) :
    (realizarAnalisis env w).1 = .ok ()
    ∧ ((∃ m, (realizarAnalisis env w).2.page
          = { w.page with resultadoAnalisis := mostrarError m w.page.resultadoAnalisis })
      ∨ (∃ c, (realizarAnalisis env w).2.page
          = { w.page with resultadoAnalisis := mostrarResultado c w.page.resultadoAnalisis,
                          archivoInput := [], instruccionesAnalisis := "" })) := by
  obtain ⟨page, log⟩ := w
  obtain ⟨estado, consulta, contexto, rConsulta, files, tipo, instrucciones, rAnalisis, form,
    rCotizacion⟩ := page
  cases files with
  | nil => exact ⟨rfl, Or.inl ⟨_, rfl⟩⟩
  | cons archivo rest =>
    rw [realizarAnalisis]
    dsimp only [bind, Js.andThen, Js.getPage, List.head?]
    by_cases hsize : archivo.size > 10 * 1024 * 1024
    · rw [if_pos hsize]
      exact ⟨rfl, Or.inl ⟨_, rfl⟩⟩
    · rw [if_neg hsize]
      have hpage := analizarDocumento_page env archivo tipo instrucciones
        { page := { connectionStatus := estado, consultaInput := consulta,
                    contextoInput := contexto, resultadoConsulta := rConsulta,
                    archivoInput := archivo :: rest, tipoAnalisis := tipo,
                    instruccionesAnalisis := instrucciones,
                    resultadoAnalisis := mostrarLoading rAnalisis, formCotizacion := form,
                    resultadoCotizacion := rCotizacion },
          log := log }
      simp only [Js.andThen, Js.modifyPage, Js.tryCatch, Js.lift]
      generalize analizarDocumento env archivo tipo instrucciones
        { page := { connectionStatus := estado, consultaInput := consulta,
                    contextoInput := contexto, resultadoConsulta := rConsulta,
                    archivoInput := archivo :: rest, tipoAnalisis := tipo,
                    instruccionesAnalisis := instrucciones,
                    resultadoAnalisis := mostrarLoading rAnalisis, formCotizacion := form,
                    resultadoCotizacion := rCotizacion },
          log := log } = res at hpage ⊢
      obtain ⟨r, p2, l2⟩ := res
      simp only at hpage
      subst hpage
      cases r with
      | error e =>
        exact ⟨rfl, Or.inl ⟨e.message, rfl⟩⟩
      | ok respuesta =>
        cases h0 : getProp respuesta "archivo" with
        | error e =>
          simp only [h0]
          exact ⟨trivial, Or.inl ⟨e.message, rfl⟩⟩
        | ok nombre =>
          cases h1 : getProp respuesta "analisis" with
          | error e =>
            simp only [h0, h1]
            exact ⟨trivial, Or.inl ⟨e.message, rfl⟩⟩
          | ok texto =>
            cases h2 : callReplace "respuesta.analisis" texto with
            | error e =>
              simp only [h0, h1, h2]
              exact ⟨trivial, Or.inl ⟨e.message, rfl⟩⟩
            | ok html =>
              cases h3 : getProp respuesta "timestamp" with
              | error e =>
                simp only [h0, h1, h2, h3]
                exact ⟨trivial, Or.inl ⟨e.message, rfl⟩⟩
              | ok timestamp =>
                simp only [h0, h1, h2, h3]
                exact ⟨trivial, Or.inr ⟨_, rfl⟩⟩

/-- The outcome of `realizarCotizacion`: an error rendering with the rest of
the page untouched, or a success rendering with the form reset. -/
theorem realizarCotizacion_outcome (env : Env) (w : World) :
    (realizarCotizacion env w).1 = .ok ()
    ∧ ((∃ m, (realizarCotizacion env w).2.page
          = { w.page with resultadoCotizacion := mostrarError m w.page.resultadoCotizacion })
      ∨ (∃ c, (realizarCotizacion env w).2.page
          = { w.page with resultadoCotizacion := mostrarResultado c w.page.resultadoCotizacion,
                          formCotizacion := w.page.formCotizacion.reset })) := by
  by_cases hf : (falsy (formGet "tipoServicio" w.page.formCotizacion.entries)
      || falsy (formGet "ubicacion" w.page.formCotizacion.entries)) = true
  · simp only [realizarCotizacion, bind, Js.andThen, Js.getPage, Js.modifyPage, hf, if_true]
    exact ⟨trivial, Or.inl ⟨_, rfl⟩⟩
  · have hpage := generarCotizacion_page env (datosCotizacion w.page.formCotizacion.entries)
      { page := { w.page with resultadoCotizacion := mostrarLoading w.page.resultadoCotizacion },
        log := w.log }
    simp only [realizarCotizacion, bind, Js.andThen, Js.getPage, Js.modifyPage, Js.tryCatch,
      Js.lift, hf, Bool.false_eq_true, if_false]
    generalize generarCotizacion env (datosCotizacion w.page.formCotizacion.entries)
      { page := { w.page with resultadoCotizacion := mostrarLoading w.page.resultadoCotizacion },
        log := w.log } = res at hpage ⊢
    obtain ⟨r, p2, l2⟩ := res
    simp only at hpage
    subst hpage
    cases r with
    | error e =>
      exact ⟨rfl, Or.inl ⟨e.message, rfl⟩⟩
    | ok respuesta =>
      cases h1 : getProp respuesta "cotizacion" with
      | error e =>
        simp only [h1]
        exact ⟨trivial, Or.inl ⟨e.message, rfl⟩⟩
      | ok texto =>
        cases h2 : callReplace "respuesta.cotizacion" texto with
        | error e =>
          simp only [h1, h2]
          exact ⟨trivial, Or.inl ⟨e.message, rfl⟩⟩
        | ok html =>
          cases h3 : getProp respuesta "timestamp" with
          | error e =>
            simp only [h1, h2, h3]
            exact ⟨trivial, Or.inl ⟨e.message, rfl⟩⟩
          | ok timestamp =>
            simp only [h1, h2, h3]
            exact ⟨trivial, Or.inr ⟨_, rfl⟩⟩

/-- C10: for each of `realizarConsulta`, `realizarAnalisis` and
`realizarCotizacion`, every world and every backend: the orchestrator
completes without throwing; its output region then does not hold the loading
rendering; and either the region holds an error rendering and the rest of the
page (every input and the form included) is as it was, or the region holds a
success rendering and exactly the fields of the success path are cleared
(query and context inputs; file input and instructions; the form reset).  No
error rendering is a success rendering, so the fields change only on the path
that ends in the success rendering. -/
theorem orchestrators_end_in_error_or_success (env : Env) (w : World) :
    ((realizarConsulta env w).1 = .ok ()
      ∧ (realizarConsulta env w).2.page.resultadoConsulta.innerHTML ≠ loadingMarkup
      ∧ ((∃ m, (realizarConsulta env w).2.page
            = { w.page with resultadoConsulta := mostrarError m w.page.resultadoConsulta })
        ∨ (∃ c, (realizarConsulta env w).2.page
            = { w.page with resultadoConsulta := mostrarResultado c w.page.resultadoConsulta,
                            consultaInput := "", contextoInput := "" })))
    ∧ ((realizarAnalisis env w).1 = .ok ()
      ∧ (realizarAnalisis env w).2.page.resultadoAnalisis.innerHTML ≠ loadingMarkup
      ∧ ((∃ m, (realizarAnalisis env w).2.page
            = { w.page with resultadoAnalisis := mostrarError m w.page.resultadoAnalisis })
        ∨ (∃ c, (realizarAnalisis env w).2.page
            = { w.page with resultadoAnalisis := mostrarResultado c w.page.resultadoAnalisis,
                            archivoInput := [], instruccionesAnalisis := "" })))
    ∧ ((realizarCotizacion env w).1 = .ok ()
      ∧ (realizarCotizacion env w).2.page.resultadoCotizacion.innerHTML ≠ loadingMarkup
      ∧ ((∃ m, (realizarCotizacion env w).2.page
            = { w.page with resultadoCotizacion := mostrarError m w.page.resultadoCotizacion })
        ∨ (∃ c, (realizarCotizacion env w).2.page
            = { w.page with resultadoCotizacion := mostrarResultado c w.page.resultadoCotizacion,
                            formCotizacion := w.page.formCotizacion.reset })))
    ∧ (∀ (m c : String) (e e' : Element),
        (mostrarError m e).innerHTML ≠ (mostrarResultado c e').innerHTML) := by
  refine ⟨?_, ?_, ?_, ?_⟩
  · obtain ⟨hok, hcases⟩ := realizarConsulta_outcome env w
    refine ⟨hok, ?_, hcases⟩
    rcases hcases with ⟨m, hm⟩ | ⟨c, hc⟩
    · rw [hm]
      exact errorMarkup_ne_loadingMarkup m
    · rw [hc]
      exact resultadoMarkup_ne_loadingMarkup c
  · obtain ⟨hok, hcases⟩ := realizarAnalisis_outcome env w
    refine ⟨hok, ?_, hcases⟩
    rcases hcases with ⟨m, hm⟩ | ⟨c, hc⟩
    · rw [hm]
      exact errorMarkup_ne_loadingMarkup m
    · rw [hc]
      exact resultadoMarkup_ne_loadingMarkup c
  · obtain ⟨hok, hcases⟩ := realizarCotizacion_outcome env w
    refine ⟨hok, ?_, hcases⟩
    rcases hcases with ⟨m, hm⟩ | ⟨c, hc⟩
    · rw [hm]
      exact errorMarkup_ne_loadingMarkup m
    · rw [hc]
      exact resultadoMarkup_ne_loadingMarkup c
  · intro m c e e'
    exact errorMarkup_ne_resultadoMarkup m c

end ApiJs
